import Mathlib

/-!
Verification of the admin configuration in
`src/packages/django-app/app/core/admin.py`.

The file shallowly embeds the declarative admin configuration (field
lists, search/filter/readonly/link settings), the `UserCreationForm`
validation-and-save pipeline, and the `force_delete` bulk action, and
proves the specified properties about them.
-/

namespace CoreAdmin

/-- A field-level validation error that `UserCreationForm` can produce.
`password_mismatch` is raised by `clean_password2` (admin.py:45-53);
`password_policy` stands for a `ValidationError` raised by
`password_validation.validate_password` and attached to `password2`
in `_post_clean` (admin.py:55-64). -/
inductive FormFieldError where
  | password_mismatch
  | password_policy
deriving DecidableEq, Repr

/-- The data submitted to `UserCreationForm`: the `email` model field
(Meta.fields = ("email",)) and the two optional password fields
(admin.py:21-34, both declared with required=False). -/
structure SubmittedData where
  email : String
  password1 : String
  password2 : String
deriving DecidableEq, Repr

/-- The stored credential produced by Django's `set_password`: an opaque
hash of the raw password. -/
inductive StoredPassword where
  | hashOf (raw : String)
deriving DecidableEq, Repr

/-- The in-progress `User` model instance as the form manipulates it:
the email written by the ModelForm machinery, the optional credential,
and whether `user.save()` has persisted it. `password = none` means no
credential has ever been set (no usable password). -/
structure UserInstance where
  email : String
  password : Option StoredPassword
  saved : Bool
deriving DecidableEq, Repr

/-- Python string truthiness: a string tests true iff it is non-empty. -/
def truthy (s : String) : Bool := s ≠ ""

/-- `UserCreationForm.clean_password2` (admin.py:45-53): raises the
`password_mismatch` ValidationError iff both password fields are truthy
(non-empty) and differ; otherwise returns `password2`. -/
def clean_password2 (d : SubmittedData) : Except FormFieldError String :=
  if truthy d.password1 && truthy d.password2 && d.password1 != d.password2 then
    Except.error FormFieldError.password_mismatch
  else
    Except.ok d.password2

/-- The instance after `super()._post_clean()` has copied the form data
onto it (admin.py:57-58): email set, no credential, not persisted. -/
def formInstance (d : SubmittedData) : UserInstance :=
  { email := d.email, password := none, saved := false }

/-- A password-strength policy, abstracting Django's configured
`password_validation.validate_password(password, instance)`: `true`
means the password passes the policy for that instance. -/
def PasswordPolicy : Type := String → UserInstance → Bool

/-- The field errors `UserCreationForm` accumulates on full_clean:
an error from `clean_password2` is attached to `password2`; then
`_post_clean` (admin.py:55-64) reads `cleaned_data.get('password2')`
(absent when `clean_password2` raised) and, if truthy, runs the strength
policy against the in-progress instance, attaching a failure to
`password2`. Only the password checks appear in admin.py; the `email`
model field is assumed valid. -/
def fieldErrors (policy : PasswordPolicy) (d : SubmittedData) :
    List (String × FormFieldError) :=
  match clean_password2 d with
  | Except.error e => [("password2", e)]
  | Except.ok pw =>
    if truthy pw && !(policy pw (formInstance d)) then
      [("password2", FormFieldError.password_policy)]
    else
      []

/-- Django's `set_password`: stores the hash of the raw password on the
instance. -/
def set_password (u : UserInstance) (raw : String) : UserInstance :=
  { u with password := some (StoredPassword.hashOf raw) }

/-- Django's `has_usable_password`: true iff a credential was set. -/
def has_usable_password (u : UserInstance) : Bool := u.password.isSome

/-- `UserCreationForm.save` (admin.py:66-74): obtains the unsaved
instance from `super().save(commit=False)`, sets the password from
`cleaned_data['password1']` when that is truthy, and persists iff
`commit`. -/
def save (d : SubmittedData) (commit : Bool) : UserInstance :=
  let user := formInstance d
  let user := if truthy d.password1 then set_password user d.password1 else user
  if commit then { user with saved := true } else user

/-- The admin add-user flow: the form is saved (with commit) only when
it validated with no errors; otherwise no user is created. -/
def adminAddUser (policy : PasswordPolicy) (d : SubmittedData) :
    Option UserInstance :=
  if (fieldErrors policy d).isEmpty then some (save d true) else none

/-- The declarative per-model admin options used by this file.
`fields = none` models a ModelAdmin that does not declare `fields`
(Django then exposes all editable model fields). -/
structure AdminConfig where
  list_display : List String
  list_display_links : List String
  readonly_fields : List String
  search_fields : List String
  list_filter : List String
  fields : Option (List String)
  actions : List String
deriving DecidableEq, Repr

/-- `BaseAdminMixin` (admin.py:146-148): readonly created_at/modified_at
and id/short_uuid as list links; everything else left at defaults. -/
def BaseAdminMixin : AdminConfig :=
  { list_display := []
    list_display_links := ["id", "short_uuid"]
    readonly_fields := ["created_at", "modified_at"]
    search_fields := []
    list_filter := []
    fields := none
    actions := [] }

/-- `ImageAdmin` (admin.py:151-193), inheriting `BaseAdminMixin` and
overriding list_display, fields, search_fields, list_filter,
readonly_fields and actions. -/
def ImageAdmin : AdminConfig :=
  { BaseAdminMixin with
    list_display :=
      ["id", "short_uuid", "is_active", "filename", "uri", "image_tag",
       "created_at"]
    fields :=
      some ["filename", "uri", "description", "created_at", "modified_at",
            "deleted_at", "is_active"]
    search_fields := ["filename"]
    list_filter := ["labels__slug"]
    readonly_fields := ["created_at", "modified_at", "deleted_at"]
    actions := ["force_delete"] }

/-- `LabeledImageAdmin` (admin.py:196-209), inheriting `BaseAdminMixin`. -/
def LabeledImageAdmin : AdminConfig :=
  { BaseAdminMixin with
    search_fields := ["label__slug", "image__filename"]
    readonly_fields := ["created_at", "modified_at"]
    list_display :=
      ["id", "short_uuid", "image_tag", "slug", "filename", "title",
       "created_at"] }

/-- `LabelAdmin` (admin.py:212-230), inheriting `BaseAdminMixin`. -/
def LabelAdmin : AdminConfig :=
  { BaseAdminMixin with
    search_fields := ["slug"]
    list_display := ["id", "short_uuid", "slug", "created_at"] }

/-- Modelled from the spec: the `LabeledImage` model (core/models.py is
not under src/) is "the association/join entity pairing one Image with
one Label, carrying derived display attributes (filename, title, slug)
and its own audit timestamps"; its editable model fields - the ones a
ModelAdmin without a `fields` declaration exposes on the change form -
are the image and label references (the display attributes are derived,
the audit timestamps framework-managed). -/
def labeledImageEditableModelFields : List String := ["image", "label"]

/-- The fields an admin change form lets the operator modify: the
declared `fields` (or, absent a declaration, all editable model fields)
minus `readonly_fields`. -/
def modifiableFields (cfg : AdminConfig) (modelEditable : List String) :
    List String :=
  (cfg.fields.getD modelEditable).filter
    (fun f => !(cfg.readonly_fields.contains f))

/-- A stored `Image` row: its primary key, filename, and whether it has
been soft-deleted (deleted_at set), which the default manager excludes. -/
structure ImageRec where
  id : Nat
  filename : String
  deleted : Bool
deriving DecidableEq, Repr

/-- Django message levels as used by `message_user`. -/
inductive MessageLevel where
  | debug
  | info
  | success
  | warning
  | error
deriving DecidableEq, Repr

/-- A message queued to the operator by `message_user`. -/
structure Message where
  level : MessageLevel
  text : String
deriving DecidableEq, Repr

/-- The state the `force_delete` action acts on: every `Image` row in
storage, plus the operator message queue. -/
structure AdminState where
  images : List ImageRec
  msgs : List Message
deriving DecidableEq, Repr

/-- The soft-delete-aware default manager (spec section 6): a query path
that excludes soft-deleted rows. -/
def defaultManagerImages (st : AdminState) : List ImageRec :=
  st.images.filter (fun i => !i.deleted)

/-- Modelled from the spec: `queryset.delete(force_delete=True)` - the
Image queryset's delete override lives in core/models.py, which is not
under src/; per the spec it "performs a hard delete (bypassing any
soft-delete/default-manager exclusion)", so every selected row is
removed from storage outright. -/
def querysetForceDelete (selected : List Nat) (images : List ImageRec) :
    List ImageRec :=
  images.filter (fun i => decide (i.id ∉ selected))

/-- `ImageAdmin.force_delete` (admin.py:190-193): hard-deletes the
selected queryset and queues exactly one SUCCESS-level message. -/
def force_delete (selected : List Nat) (st : AdminState) : AdminState :=
  { images := querysetForceDelete selected st.images
    msgs := st.msgs ++ [⟨MessageLevel.success, " Force Deleted FormTemplates!"⟩] }

/-- Django's `icontains` lookup, which admin search uses for a
search_fields entry with no prefix: case-insensitive containment. -/
def lowerChars (s : String) : List Char := s.data.map Char.toLower

def icontains (value q : String) : Bool :=
  decide (List.IsInfix (lowerChars q) (lowerChars value))

/-- The value an `Image` row exposes for each entry of
`ImageAdmin.search_fields`. -/
def imageFieldValue (i : ImageRec) (f : String) : String :=
  if f = "filename" then i.filename else ""

/-- Django's `ModelAdmin.get_search_results` restricted to plain
search_fields entries: an empty term leaves the queryset unchanged;
otherwise a row is kept when any search field icontains the term. -/
def getSearchResults (searchFields : List String)
    (fieldVal : α → String → String) (q : String) (db : List α) : List α :=
  if q = "" then db
  else db.filter (fun r => searchFields.any (fun f => icontains (fieldVal r f) q))

/-- Searching the Image changelist, with `ImageAdmin.search_fields`. -/
def imageSearch (q : String) (db : List ImageRec) : List ImageRec :=
  getSearchResults ImageAdmin.search_fields imageFieldValue q db

/-- A row of the Image-Label association table (`LabeledImage`),
reduced to the join data the list filter consults: the image it points
at and the slug of the label it points at. -/
structure LabeledImageRec where
  imageId : Nat
  labelSlug : String
deriving DecidableEq, Repr

/-- Filtering the Image changelist by `labels__slug = s`
(list_filter = ('labels__slug',), admin.py:184): keeps the images that
have an association row to a label with that slug. -/
def imageListFilterBySlug (s : String) (db : List ImageRec)
    (assocs : List LabeledImageRec) : List ImageRec :=
  db.filter (fun i => assocs.any (fun a => a.imageId == i.id && a.labelSlug == s))

/-- C1: for every non-empty selection of Image records, the
`force_delete` admin action hard-deletes every selected record - the
record is gone from the full table, hence also from the soft-delete-
excluding default-manager query - and queues exactly one success-level
notice to the operator. -/
theorem c1_force_delete_hard_deletes_and_notifies
    (selected : List Nat) (st : AdminState) (hne : selected ≠ []) :
    (∀ i ∈ (force_delete selected st).images, i.id ∉ selected) ∧
    (∀ i ∈ defaultManagerImages (force_delete selected st), i.id ∉ selected) ∧
    (force_delete selected st).msgs =
      st.msgs ++ [⟨MessageLevel.success, " Force Deleted FormTemplates!"⟩] := by
  have hall : ∀ i ∈ (force_delete selected st).images, i.id ∉ selected := by
    intro i hi
    have h2 := (List.mem_filter.mp hi).2
    exact of_decide_eq_true h2
  refine ⟨hall, ?_, rfl⟩
  intro i hi
  have : i ∈ (force_delete selected st).images :=
    (List.mem_filter.mp hi).1
  exact hall i this

/-- C1 witness: deleting the selection {1} from a two-row table. -/
theorem c1_witness :
    (∀ i ∈ (force_delete [1]
        ⟨[⟨1, "a.png", false⟩, ⟨2, "b.png", true⟩], []⟩).images,
      i.id ∉ [1]) ∧
    (∀ i ∈ defaultManagerImages (force_delete [1]
        ⟨[⟨1, "a.png", false⟩, ⟨2, "b.png", true⟩], []⟩),
      i.id ∉ [1]) ∧
    (force_delete [1]
        ⟨[⟨1, "a.png", false⟩, ⟨2, "b.png", true⟩], []⟩).msgs =
      [] ++ [⟨MessageLevel.success, " Force Deleted FormTemplates!"⟩] :=
  c1_force_delete_hard_deletes_and_notifies [1]
    ⟨[⟨1, "a.png", false⟩, ⟨2, "b.png", true⟩], []⟩ (by decide)

/-- C2 counterexample: the submission (email "a@b.c", password1 "secret",
password2 "") has password1 different from password2, yet the form
validates with no errors - even under a policy rejecting every password -
and the created user is handed the credential hash of "secret". -/
theorem c2_counterexample :
    fieldErrors (fun _ _ => false) ⟨"a@b.c", "secret", ""⟩ = [] ∧
    adminAddUser (fun _ _ => false) ⟨"a@b.c", "secret", ""⟩ =
      some ⟨"a@b.c", some (StoredPassword.hashOf "secret"), true⟩ :=
  ⟨rfl, rfl⟩

/-- C2 (amended): for every submission in which BOTH password fields are
non-empty and they differ, validation fails with the password-mismatch
error attached to password2, and no user is created (so no credential is
set). -/
theorem c2_mismatch_both_filled (policy : PasswordPolicy) (d : SubmittedData)
    (h1 : d.password1 ≠ "") (h2 : d.password2 ≠ "")
    (hne : d.password1 ≠ d.password2) :
    fieldErrors policy d = [("password2", FormFieldError.password_mismatch)] ∧
    adminAddUser policy d = none := by
  have hcond : (truthy d.password1 && truthy d.password2 &&
      (d.password1 != d.password2)) = true := by
    simp [truthy, h1, h2, bne_iff_ne, hne]
  have hc : clean_password2 d =
      Except.error FormFieldError.password_mismatch := by
    simp [clean_password2, hcond]
  have hf : fieldErrors policy d =
      [("password2", FormFieldError.password_mismatch)] := by
    simp [fieldErrors, hc]
  exact ⟨hf, by simp [adminAddUser, hf]⟩

/-- C2 witness: mismatching non-empty passwords "x" and "y". -/
theorem c2_witness :
    fieldErrors (fun _ _ => true) ⟨"a@b.c", "x", "y"⟩ =
      [("password2", FormFieldError.password_mismatch)] ∧
    adminAddUser (fun _ _ => true) ⟨"a@b.c", "x", "y"⟩ = none :=
  c2_mismatch_both_filled (fun _ _ => true) ⟨"a@b.c", "x", "y"⟩
    (by decide) (by decide) (by decide)

/-- C3: for every submission with both password fields blank, validation
yields no errors, a user is created, and that user has no credential
(`set_password` was never invoked: the password slot is still `none`, so
there is no usable password). -/
theorem c3_blank_passwords (policy : PasswordPolicy) (d : SubmittedData)
    (h1 : d.password1 = "") (h2 : d.password2 = "") :
    fieldErrors policy d = [] ∧
    adminAddUser policy d = some (save d true) ∧
    (save d true).password = none ∧
    has_usable_password (save d true) = false := by
  have hf : fieldErrors policy d = [] := by
    simp [fieldErrors, clean_password2, truthy, h1, h2]
  refine ⟨hf, by simp [adminAddUser, hf], ?_, ?_⟩ <;>
    simp [save, truthy, h1, formInstance, has_usable_password]

/-- C3 witness: blank passwords under an always-rejecting policy. -/
theorem c3_witness :
    fieldErrors (fun _ _ => false) ⟨"a@b.c", "", ""⟩ = [] ∧
    adminAddUser (fun _ _ => false) ⟨"a@b.c", "", ""⟩ =
      some (save ⟨"a@b.c", "", ""⟩ true) ∧
    (save ⟨"a@b.c", "", ""⟩ true).password = none ∧
    has_usable_password (save ⟨"a@b.c", "", ""⟩ true) = false :=
  c3_blank_passwords (fun _ _ => false) ⟨"a@b.c", "", ""⟩ rfl rfl

/-- C4: for every submission that supplies a password in password2, if
that password fails the strength policy evaluated against the
in-progress user instance, then form validation fails with an error
attached to the password2 field and no user is created. -/
theorem c4_weak_password_rejected (policy : PasswordPolicy)
    (d : SubmittedData) (h2 : d.password2 ≠ "")
    (hpol : policy d.password2 (formInstance d) = false) :
    (∃ e, ("password2", e) ∈ fieldErrors policy d) ∧
    adminAddUser policy d = none := by
  by_cases hcond : (truthy d.password1 && truthy d.password2 &&
      (d.password1 != d.password2)) = true
  · have hc : clean_password2 d =
        Except.error FormFieldError.password_mismatch := by
      simp [clean_password2, hcond]
    have hf : fieldErrors policy d =
        [("password2", FormFieldError.password_mismatch)] := by
      simp [fieldErrors, hc]
    exact ⟨⟨FormFieldError.password_mismatch, by simp [hf]⟩,
      by simp [adminAddUser, hf]⟩
  · have hc : clean_password2 d = Except.ok d.password2 := by
      simp [clean_password2, hcond]
    have hf : fieldErrors policy d =
        [("password2", FormFieldError.password_policy)] := by
      simp [fieldErrors, hc, truthy, h2, hpol]
    exact ⟨⟨FormFieldError.password_policy, by simp [hf]⟩,
      by simp [adminAddUser, hf]⟩

/-- C4 witness: both fields hold "pw" and the policy rejects it. -/
theorem c4_witness :
    (∃ e, ("password2", e) ∈ fieldErrors (fun _ _ => false) ⟨"a@b.c", "pw", "pw"⟩) ∧
    adminAddUser (fun _ _ => false) ⟨"a@b.c", "pw", "pw"⟩ = none :=
  c4_weak_password_rejected (fun _ _ => false) ⟨"a@b.c", "pw", "pw"⟩
    (by decide) rfl

/-- C5: for every valid form that supplied a password, `save` writes the
hash of password1 onto the instance, and the instance is persisted iff
the commit flag is set (with the credential already on it either way). -/
theorem c5_save_behaviour (policy : PasswordPolicy) (d : SubmittedData)
    (commit : Bool) (hvalid : (fieldErrors policy d).isEmpty = true)
    (hp : d.password1 ≠ "") :
    (save d commit).password = some (StoredPassword.hashOf d.password1) ∧
    (save d commit).saved = commit := by
  have ht : truthy d.password1 = true := by simp [truthy, hp]
  cases commit <;> simp [save, ht, set_password, formInstance]

/-- C5 witness: a valid form with password "pw" saved with commit off. -/
theorem c5_witness :
    (save ⟨"a@b.c", "pw", "pw"⟩ false).password =
      some (StoredPassword.hashOf "pw") ∧
    (save ⟨"a@b.c", "pw", "pw"⟩ false).saved = false :=
  c5_save_behaviour (fun _ _ => true) ⟨"a@b.c", "pw", "pw"⟩ false rfl
    (by decide)

/-- C6 counterexample: the URI field is exposed on the Image detail view
but is not read-only - it is absent from `ImageAdmin.readonly_fields`,
contradicting the claim that every exposed field except filename,
description and the activity flag is read-only. -/
theorem c6_counterexample :
    "uri" ∈ ImageAdmin.fields.getD [] ∧
    "uri" ∉ ImageAdmin.readonly_fields := by
  decide

/-- C6 (amended): the Image detail view exposes exactly filename, uri,
description, the three timestamps and the activity flag; the three
timestamps are read-only, while filename, uri, description and the
activity flag are editable. -/
theorem c6_image_detail_fields :
    ImageAdmin.fields = some ["filename", "uri", "description",
      "created_at", "modified_at", "deleted_at", "is_active"] ∧
    ImageAdmin.readonly_fields = ["created_at", "modified_at", "deleted_at"] ∧
    modifiableFields ImageAdmin [] =
      ["filename", "uri", "description", "is_active"] := by
  decide

/-- C7 counterexample: the LabeledImage admin is not read-only - its
readonly set is exactly the two timestamps, so the image and label
references of an association row remain modifiable through its change
form. -/
theorem c7_counterexample :
    modifiableFields LabeledImageAdmin labeledImageEditableModelFields =
      ["image", "label"] ∧
    modifiableFields LabeledImageAdmin labeledImageEditableModelFields ≠ [] := by
  decide

/-- C7 (amended): the LabeledImage admin is a list/search view over the
association entity with created_at and modified_at read-only (the image
and label references stay editable), searchable by label slug or image
filename, listing id, short UUID, image preview, slug, filename, title
and creation time. -/
theorem c7_labeled_image_admin :
    LabeledImageAdmin.search_fields = ["label__slug", "image__filename"] ∧
    LabeledImageAdmin.readonly_fields = ["created_at", "modified_at"] ∧
    LabeledImageAdmin.list_display =
      ["id", "short_uuid", "image_tag", "slug", "filename", "title",
       "created_at"] ∧
    modifiableFields LabeledImageAdmin labeledImageEditableModelFields =
      ["image", "label"] := by
  decide

/-- C8: searching the Image changelist returns exactly the stored records
whose filename contains the search term (case-insensitively, Django's
icontains), and filtering by a label slug returns exactly the images
having an association row to a label with that slug. -/
theorem c8_search_and_filter :
    (∀ (q : String) (db : List ImageRec) (i : ImageRec),
      i ∈ imageSearch q db ↔
        i ∈ db ∧ List.IsInfix (lowerChars q) (lowerChars i.filename)) ∧
    (∀ (s : String) (db : List ImageRec) (assocs : List LabeledImageRec)
        (i : ImageRec),
      i ∈ imageListFilterBySlug s db assocs ↔
        i ∈ db ∧ ∃ a ∈ assocs, a.imageId = i.id ∧ a.labelSlug = s) := by
  constructor
  · intro q db i
    by_cases hq : q = ""
    · subst hq
      simp [imageSearch, getSearchResults]
      intro _
      have hnil : lowerChars "" = ([] : List Char) := rfl
      rw [hnil]
      exact List.nil_infix
    · simp [imageSearch, getSearchResults, hq, List.mem_filter, ImageAdmin,
        BaseAdminMixin, icontains, imageFieldValue]
  · intro s db assocs i
    simp [imageListFilterBySlug, List.mem_filter, List.any_eq_true]

/-- C9: the shared base configuration holds for each of the Image,
LabeledImage and Label registrations: created_at and modified_at are
read-only, and both the id column and the short-UUID column are listed
and are the clickable links into the detail view. -/
theorem c9_shared_base_config :
    ("created_at" ∈ ImageAdmin.readonly_fields ∧
     "modified_at" ∈ ImageAdmin.readonly_fields ∧
     ImageAdmin.list_display_links = ["id", "short_uuid"] ∧
     "id" ∈ ImageAdmin.list_display ∧
     "short_uuid" ∈ ImageAdmin.list_display) ∧
    ("created_at" ∈ LabeledImageAdmin.readonly_fields ∧
     "modified_at" ∈ LabeledImageAdmin.readonly_fields ∧
     LabeledImageAdmin.list_display_links = ["id", "short_uuid"] ∧
     "id" ∈ LabeledImageAdmin.list_display ∧
     "short_uuid" ∈ LabeledImageAdmin.list_display) ∧
    ("created_at" ∈ LabelAdmin.readonly_fields ∧
     "modified_at" ∈ LabelAdmin.readonly_fields ∧
     LabelAdmin.list_display_links = ["id", "short_uuid"] ∧
     "id" ∈ LabelAdmin.list_display ∧
     "short_uuid" ∈ LabelAdmin.list_display) := by
  decide

/-- C10: for every submission with a non-empty password1 and an empty
password2, the form validates with no errors - neither the mismatch
check (which needs both fields non-empty) nor the strength policy
(which inspects only password2) fires, whatever the policy - and the
saved user's credential is the hash of the never-validated password1. -/
theorem c10_password2_blank_bypass (policy : PasswordPolicy)
    (d : SubmittedData) (h1 : d.password1 ≠ "") (h2 : d.password2 = "") :
    fieldErrors policy d = [] ∧
    adminAddUser policy d = some (save d true) ∧
    (save d true).password = some (StoredPassword.hashOf d.password1) := by
  have hf : fieldErrors policy d = [] := by
    simp [fieldErrors, clean_password2, truthy, h2]
  have ht : truthy d.password1 = true := by simp [truthy, h1]
  exact ⟨hf, by simp [adminAddUser, hf],
    by simp [save, ht, set_password, formInstance]⟩

/-- C10 witness: password1 "pw", password2 blank, under an
always-rejecting policy: no errors, and "pw" becomes the credential. -/
theorem c10_witness :
    fieldErrors (fun _ _ => false) ⟨"a@b.c", "pw", ""⟩ = [] ∧
    adminAddUser (fun _ _ => false) ⟨"a@b.c", "pw", ""⟩ =
      some (save ⟨"a@b.c", "pw", ""⟩ true) ∧
    (save ⟨"a@b.c", "pw", ""⟩ true).password =
      some (StoredPassword.hashOf "pw") :=
  c10_password2_blank_bypass (fun _ _ => false) ⟨"a@b.c", "pw", ""⟩
    (by decide) rfl

end CoreAdmin
